import Mathlib

/-!
# Verification of the interview-session media-capture and proctoring controller

Shallow embedding of the session controller (`InterviewSession`): the
countdown-timer effect, the screen-chunk upload loop with its base64
normalization, the proctoring handlers (tab-switch, screen-track end), and
the session-end transition.  Pure functions are translated directly; the
React state is an explicit `SessionState` record and each handler is a
state-transition function.  Backend / browser outcomes that the code reacts
to (fetch ok, socket connected, acknowledgement result) are explicit
parameters of the transitions.
-/

namespace InterviewSession

/-- The observable client state of an interview session, as held by the
component: React `useState` values, the mutable refs the handlers read and
write, and counters of backend calls made (each `fetch` / `emit` the code
performs increments the matching counter, so "no call is made" is provable
as the counter being unchanged). -/
structure SessionState where
  /-- The `responseId` state; `none` before session start. -/
  responseId : Option String := none
  /-- The `interviewComplete` state. -/
  interviewComplete : Bool := false
  /-- The `screenSharingStopped` state. -/
  screenSharingStopped : Bool := false
  /-- The `isRecording` state (microphone recorder active). -/
  isRecording : Bool := false
  /-- The `socketConnected` state. -/
  socketConnected : Bool := false
  /-- The `transcript` state. -/
  transcript : String := ""
  /-- The `error` state (user-visible error text, empty when no error). -/
  error : String := ""
  /-- The `cheatingAlertsRef.current`: append-only list of alert types. -/
  alerts : List String := []
  /-- The `tabSwitchCountRef.current`. -/
  tabSwitchCount : Nat := 0
  /-- The `timeRemaining` state, in seconds; `none` = untimed. -/
  timeRemaining : Option Int := none
  /-- Whether `screenRecorderRef.current` holds an active recorder. -/
  recorderActive : Bool := false
  /-- Number of `end-interview` backend calls issued so far. -/
  endFetchCalls : Nat := 0
  /-- Number of `submit-answer` backend calls issued so far. -/
  submitFetchCalls : Nat := 0
  /-- Number of times a microphone recording was started. -/
  recordingsStarted : Nat := 0
deriving Repr, DecidableEq

/-- The `recordCheatingAlert(type, details)`: pushes the alert onto
`cheatingAlertsRef.current` (append-only) and fires a best-effort POST whose
failure is swallowed, so only the append is observable locally. -/
def recordCheatingAlert (s : SessionState) (ty : String) : SessionState :=
  { s with alerts := s.alerts ++ [ty] }

/-- The `endInterviewManually()`.  Guard: `if (!responseId || interviewComplete)
return;`.  Otherwise it clears the timer, stops the screen recorder, signals
the socket, and POSTs `end-interview` (`fetchOk` is whether that response is
ok); on success `interviewComplete` is set, on failure the thrown message
becomes the error text and completion is not set. -/
def endInterviewManually (fetchOk : Bool) (s : SessionState) : SessionState :=
  if s.responseId = none ∨ s.interviewComplete = true then s
  else
    let s1 := { s with recorderActive := false,
                       endFetchCalls := s.endFetchCalls + 1 }
    if fetchOk then { s1 with interviewComplete := true }
    else { s1 with error := "Failed to end interview" }

/-- The `handleVisibilityChange` on a `document.hidden` transition: increments
`tabSwitchCountRef.current`, records a `tab_switch` alert, sets the warning
error text, and when the count has reached 3 sets the termination message and
invokes `endInterviewManually`.  The enclosing effect only installs this
listener while `responseId` is set and the interview is not complete. -/
def handleVisibilityHidden (fetchOk : Bool) (s : SessionState) : SessionState :=
  let c := s.tabSwitchCount + 1
  let msg := "⚠️ Warning: You switched tabs. This is being monitored. (Count: "
    ++ toString c ++ ")"
  let s1 := recordCheatingAlert { s with tabSwitchCount := c } "tab_switch"
  let s2 := { s1 with error := msg }
  if c ≥ 3 then
    endInterviewManually fetchOk
      { s2 with error :=
          "Interview terminated: Multiple tab switches detected. This indicates suspicious activity." }
  else s2

/-- The `videoTrack.onended` (user revokes screen sharing via browser chrome):
records a `screen_sharing_stopped` alert, sets `screenSharingStopped`, stops
the screen recording, and sets the error text. -/
def videoTrackOnEnded (s : SessionState) : SessionState :=
  let s1 := recordCheatingAlert s "screen_sharing_stopped"
  { s1 with screenSharingStopped := true,
            recorderActive := false,
            error := "⚠️ Screen sharing was stopped! Please restart screen sharing to continue the interview." }

/-- The `startRecording()`: rejects when the socket is not connected; otherwise
acquires the microphone (`micOk` is whether `getUserMedia` succeeds), starts
the recorder and clears the transcript. -/
def startRecording (micOk : Bool) (s : SessionState) : SessionState :=
  if ¬ (s.socketConnected = true) then
    { s with error := "Socket not connected. Please wait..." }
  else if micOk then
    { s with isRecording := true, transcript := "",
             recordingsStarted := s.recordingsStarted + 1 }
  else
    { s with error := "Could not access microphone. Please check permissions." }

/-- The `stopRecording()`: stops the microphone recorder when active. -/
def stopRecording (s : SessionState) : SessionState :=
  if s.isRecording then { s with isRecording := false } else s

/-- The `toggleRecording()`: blocked with an error while `screenSharingStopped`;
otherwise stops or starts the microphone recording. -/
def toggleRecording (micOk : Bool) (s : SessionState) : SessionState :=
  if s.screenSharingStopped then
    { s with error := "⚠️ Cannot record: Screen sharing is required. Please restart screen sharing to continue." }
  else if s.isRecording then stopRecording s
  else startRecording micOk s

/-- The `restartScreenSharing()`: no-op without a `responseId`; clears the error
and restarts screen recording (`startOk` is whether `startScreenRecording`
succeeds); only on success is `screenSharingStopped` cleared, a failure sets
the error text instead. -/
def restartScreenSharing (startOk : Bool) (s : SessionState) : SessionState :=
  if s.responseId = none then s
  else
    let s1 := { s with error := "" }
    if startOk then
      { s1 with recorderActive := true, screenSharingStopped := false }
    else { s1 with error := "Failed to restart screen sharing" }

/-- The `submitAnswer()`.  First guard: missing `responseId`, blank transcript or
the placeholder text rejects with an error; second guard: rejects while
`screenSharingStopped`.  Otherwise stops a live recording and POSTs
`submit-answer` (`fetchOk` is whether the response is ok, `complete` whether
it carries the completion flag): completion sets `interviewComplete`,
a non-final answer clears the transcript for the next question, an HTTP
failure sets the error text. -/
def submitAnswer (fetchOk complete : Bool) (s : SessionState) : SessionState :=
  if s.responseId = none ∨ s.transcript.trim = "" ∨ s.transcript = "Recording..." then
    { s with error := "Please record an answer first" }
  else if s.screenSharingStopped then
    { s with error := "⚠️ Cannot submit: Screen sharing is required. Please restart screen sharing to continue." }
  else
    let s1 := stopRecording s
    let s2 := { s1 with submitFetchCalls := s1.submitFetchCalls + 1 }
    if ¬ fetchOk then { s2 with error := "Failed to submit answer" }
    else if complete then { s2 with interviewComplete := true }
    else { s2 with transcript := "" }

/-! ## Session timer -/

/-- Initialization of `timeRemaining` at session start:
`if (data.duration_minutes && data.duration_minutes > 0)
  setTimeRemaining(duration_minutes * 60)` — a zero or absent duration leaves
the timer disabled (`none`). -/
def initTimeRemaining (durationMinutes : Int) : Option Int :=
  if 0 < durationMinutes then some (durationMinutes * 60) else none

/-- The `setInterval` callback of the countdown effect:
`prev === null || prev <= 1 ? 0 : prev - 1`. -/
def tickUpdate : Option Int → Option Int
  | none => some 0
  | some prev => if prev ≤ 1 then some 0 else some (prev - 1)

/-- The countdown effect's early-return guard:
`timeRemaining === null || timeRemaining <= 0 || interviewComplete`. -/
def timerGateClosed (s : SessionState) : Bool :=
  (match s.timeRemaining with
   | none => true
   | some t => decide (t ≤ 0)) || s.interviewComplete

/-- The auto-end condition inside the closed gate:
`timeRemaining === 0 && !interviewComplete && responseId`. -/
def timerAutoEndFires (s : SessionState) : Bool :=
  (s.timeRemaining == some 0) && !s.interviewComplete && s.responseId.isSome

/-- One run of the countdown effect followed by the tick it arms (when it
arms one): a closed gate either auto-ends the interview or leaves the state
alone; an open gate schedules the interval whose callback applies
`tickUpdate` to `timeRemaining`. -/
def timerStep (fetchOk : Bool) (s : SessionState) : SessionState :=
  if timerGateClosed s then
    if timerAutoEndFires s then endInterviewManually fetchOk s else s
  else { s with timeRemaining := tickUpdate s.timeRemaining }

/-- Iterates `n` successive timer-effect runs / ticks. -/
def runTimer (fetchOk : Bool) : Nat → SessionState → SessionState
  | 0, s => s
  | n + 1, s => runTimer fetchOk n (timerStep fetchOk s)

/-! ## Screen-chunk upload loop (`screenRecorder.ondataavailable`) -/

/-- The acknowledgement outcome the `savePromise` of one chunk observes over
the socket: a positive `video_chunk_saved` ack, an explicit `error` event,
or the 10-second timeout. -/
inductive AckOutcome where
  | acked
  | errorResponse
  | ackTimeout
deriving Repr, DecidableEq

/-- The environment of one `ondataavailable` invocation: whether the socket
became connected within the 5-second wait loop (only then is the chunk
emitted at all), and what acknowledgement the emitted chunk got. -/
structure ChunkAttempt where
  socketReady : Bool
  ack : AckOutcome
deriving Repr, DecidableEq

/-- A chunk is actually emitted on the socket iff the socket was connected
after the wait; otherwise the handler throws before the `emit`. -/
def chunkEmitted (a : ChunkAttempt) : Bool := a.socketReady

/-- The `screenChunkIndexRef.current++` happens only after `await savePromise`
succeeds, i.e. only on a positive acknowledgement. -/
def chunkAcked (a : ChunkAttempt) : Bool :=
  a.socketReady && (a.ack == AckOutcome.acked)

/-- What one chunk upload reports: saved, or failed (every failure path —
socket unavailable, ack timeout, explicit error — is caught by the handler's
`catch` block). -/
inductive UploadResult where
  | uploaded
  | failed
deriving Repr, DecidableEq

/-- One `ondataavailable` invocation: reads `chunkIndex` from the ref,
emits and awaits when the socket is ready, increments the ref only on a
positive ack, and catches every failure (the session state `s` is never
touched: the `catch` block only logs, and the handler never stops the
recorder or completes the session).  Returns the state, the new ref value
and the upload result. -/
def screenChunkHandler (s : SessionState) (idx : Nat) (a : ChunkAttempt) :
    SessionState × Nat × UploadResult :=
  if a.socketReady then
    match a.ack with
    | AckOutcome.acked => (s, idx + 1, UploadResult.uploaded)
    | _ => (s, idx, UploadResult.failed)
  else (s, idx, UploadResult.failed)

/-- The chunk loop: every 10-second `ondataavailable` event is handled in
turn, threading `screenChunkIndexRef` through; one result per chunk. -/
def runScreenChunks (s : SessionState) (idx : Nat) :
    List ChunkAttempt → SessionState × Nat × List UploadResult
  | [] => (s, idx, [])
  | a :: rest =>
    let r := screenChunkHandler s idx a
    let t := runScreenChunks r.1 r.2.1 rest
    (t.1, t.2.1, r.2.2 :: t.2.2)

/-- The sequence of `chunkIndex` values under which chunks are actually
emitted on the socket, starting from ref value `idx`: each handler captures
the current ref value, and the ref advances only on an acknowledged chunk. -/
def sentIndices (idx : Nat) : List ChunkAttempt → List Nat
  | [] => []
  | a :: rest =>
    let next := if chunkAcked a then idx + 1 else idx
    if chunkEmitted a then idx :: sentIndices next rest
    else sentIndices next rest

/-! ## Base64 normalization of a screen chunk (`ondataavailable` FileReader path) -/

/-- The base64 alphabet the cleaning regex keeps: `[A-Za-z0-9+/=]`. -/
def isB64AlphabetChar (c : Char) : Bool :=
  ('A' ≤ c && c ≤ 'Z') || ('a' ≤ c && c ≤ 'z') || ('0' ≤ c && c ≤ '9') ||
    c == '+' || c == '/' || c == '='

/-- The whitespace/control characters removed by `.trim()` and the
`/[\s\n\r\t]/g` replacement: space, tab, newline, carriage return, vertical
tab, form feed. -/
def isJsWhitespace (c : Char) : Bool :=
  c == ' ' || c == '\t' || c == '\n' || c == '\r' || c == '\x0b' || c == '\x0c'

/-- The `result.split(',')[1]`: the segment between the first and the second
comma of the FileReader data URL. -/
def splitCommaSecond (s : List Char) : List Char :=
  ((s.dropWhile (fun c => c ≠ ',')).drop 1).takeWhile (fun c => c ≠ ',')

/-- The `if (result.includes(',')) base64 = result.split(',')[1]` — strip the
`data:...;base64,` prefix when a comma is present, else keep the whole
result. -/
def extractPayload (result : List Char) : List Char :=
  if result.contains ',' then splitCommaSecond result else result

/-- The `.trim()`: drop leading and trailing whitespace. -/
def jsTrim (s : List Char) : List Char :=
  ((s.dropWhile isJsWhitespace).reverse.dropWhile isJsWhitespace).reverse

/-- The `.replace(/[\s\n\r\t]/g, '')`: remove all whitespace characters. -/
def stripWhitespaceChars (s : List Char) : List Char :=
  s.filter (fun c => ¬ isJsWhitespace c)

/-- The `.replace(/[^A-Za-z0-9+\/=]/g, '')`: keep only base64-alphabet
characters. -/
def keepB64Chars (s : List Char) : List Char := s.filter isB64AlphabetChar

/-- Padding restoration: `padding = base64.length % 4; if (padding > 0)
base64 += '='.repeat(4 - padding)`. -/
def padTo4 (s : List Char) : List Char :=
  if s.length % 4 > 0 then s ++ List.replicate (4 - s.length % 4) '=' else s

/-- The whole base64 normalization performed on the FileReader result before
a chunk is emitted: strip the data-URL prefix, trim, remove whitespace,
remove non-alphabet characters, reject an empty result (the code throws,
which the chunk handler catches — no emission), restore padding. -/
def normalizeChunkBase64 (result : List Char) : Option (List Char) :=
  let b := keepB64Chars (stripWhitespaceChars (jsTrim (extractPayload result)))
  if b.length = 0 then none else some (padTo4 b)

/-! ## TTS audio playback (`playTTSAudio`) and the base64 round trip -/

/-- The base64 alphabet in index order. -/
def b64Alphabet : List Char :=
  "ABCDEFGHIJKLMNOPQRSTUVWXYZabcdefghijklmnopqrstuvwxyz0123456789+/".toList

/-- The alphabet character for a 6-bit value. -/
def encodeSextet (n : Nat) : Char := b64Alphabet.getD n 'A'

/-- The 6-bit value of an alphabet character. -/
def decodeSextet (c : Char) : Nat := b64Alphabet.indexOf c

/-- Modelled from the spec: the backend that produces `ttsAudioBase64` is an
external collaborator (its code is not part of this repository), specified
only as supplying the synthesized-audio bytes in the standard padded base64
text encoding — each group of three bytes becomes four alphabet characters,
a trailing group of one or two bytes is padded with `=`. -/
def b64Encode : List Nat → List Char
  | [] => []
  | [a] => [encodeSextet (a / 4), encodeSextet (a % 4 * 16), '=', '=']
  | [a, b] => [encodeSextet (a / 4), encodeSextet (a % 4 * 16 + b / 16),
               encodeSextet (b % 16 * 4), '=']
  | a :: b :: c :: rest =>
      encodeSextet (a / 4) :: encodeSextet (a % 4 * 16 + b / 16) ::
      encodeSextet (b % 16 * 4 + c / 64) :: encodeSextet (c % 64) ::
      b64Encode rest

/-- The byte values produced by the browser builtin `atob` (standard base64
decode): every four characters yield three bytes, except that a group ending
in `=` or `==` yields two bytes or one. -/
def atobBytes : List Char → List Nat
  | c0 :: c1 :: c2 :: c3 :: rest =>
    if c2 = '=' then
      [decodeSextet c0 * 4 + decodeSextet c1 / 16]
    else if c3 = '=' then
      [decodeSextet c0 * 4 + decodeSextet c1 / 16,
       decodeSextet c1 % 16 * 16 + decodeSextet c2 / 4]
    else
      (decodeSextet c0 * 4 + decodeSextet c1 / 16) ::
      (decodeSextet c1 % 16 * 16 + decodeSextet c2 / 4) ::
      (decodeSextet c2 % 4 * 64 + decodeSextet c3) ::
      atobBytes rest
  | _ => []

/-- The `atob(base64Audio)`: the decoded binary string, one character per decoded
byte. -/
def atob (s : List Char) : List Char := (atobBytes s).map Char.ofNat

/-- The decoding path of `playTTSAudio`: `atob`, then
`view[i] = audioData.charCodeAt(i)` character by character into the
`Uint8Array` that backs the audio blob. -/
def playTTSAudioBytes (base64Audio : List Char) : List Nat :=
  (atob base64Audio).map Char.toNat

/-- The state right after a successful `start-interview` response carrying
`durationMinutes`: `responseId` captured, the timer initialized, nothing
else touched. -/
def timedSessionStart (durationMinutes : Int) : SessionState :=
  { responseId := some "resp-1",
    timeRemaining := initTimeRemaining durationMinutes }

/-! ## Timer lemmas -/

theorem runTimer_zero (ok : Bool) (s : SessionState) : runTimer ok 0 s = s := rfl

theorem runTimer_succ (ok : Bool) (n : Nat) (s : SessionState) :
    runTimer ok (n + 1) s = runTimer ok n (timerStep ok s) := rfl

theorem runTimer_add (ok : Bool) (m n : Nat) (s : SessionState) :
    runTimer ok (m + n) s = runTimer ok n (runTimer ok m s) := by
  induction m generalizing s with
  | zero => simp [runTimer]
  | succ m ih =>
    have : m + 1 + n = (m + n) + 1 := by omega
    rw [this, runTimer_succ, runTimer_succ, ih]

/-- Once the interview is complete the countdown effect does nothing more:
its gate is closed and the auto-end guard requires `!interviewComplete`. -/
theorem timerStep_complete (ok : Bool) (s : SessionState)
    (h : s.interviewComplete = true) : timerStep ok s = s := by
  unfold timerStep timerGateClosed timerAutoEndFires
  simp [h]

theorem runTimer_complete (ok : Bool) (n : Nat) (s : SessionState)
    (h : s.interviewComplete = true) : runTimer ok n s = s := by
  induction n with
  | zero => rfl
  | succ n ih => rw [runTimer_succ, timerStep_complete ok s h, ih]

/-- The `endInterviewManually` never touches `timeRemaining`. -/
theorem endInterviewManually_timeRemaining (ok : Bool) (s : SessionState) :
    (endInterviewManually ok s).timeRemaining = s.timeRemaining := by
  unfold endInterviewManually
  split
  · rfl
  · split <;> rfl

/-- While the clock is positive and the interview not complete, `n` effect
runs (each arming one tick) decrement the clock by exactly `n`. -/
theorem runTimer_countdown (ok : Bool) (n : Nat) (s : SessionState) (t : Int)
    (ht : s.timeRemaining = some t) (hc : s.interviewComplete = false)
    (h0 : 0 < t) (hn : (n : Int) ≤ t) :
    runTimer ok n s = { s with timeRemaining := some (t - n) } := by
  induction n generalizing s t with
  | zero =>
    rw [runTimer_zero]
    have : t - ((0 : Nat) : Int) = t := by simp
    rw [this, ← ht]
  | succ n ih =>
    rw [runTimer_succ]
    have hstep : timerStep ok s = { s with timeRemaining := tickUpdate (some t) } := by
      unfold timerStep timerGateClosed
      rw [ht]
      simp [hc, show ¬ (t ≤ 0) from by omega, ht]
    rw [hstep]
    by_cases h1 : t ≤ 1
    · have ht1 : t = 1 := by omega
      have hn0 : n = 0 := by
        have : ((n : Int) + 1) ≤ t := by push_cast at hn ⊢; omega
        omega
      subst hn0 ht1
      simp [tickUpdate, runTimer_zero]
    · have htick : tickUpdate (some t) = some (t - 1) := by
        simp [tickUpdate, h1]
      rw [htick]
      have := ih { s with timeRemaining := some (t - 1) } (t - 1) rfl hc
        (by omega) (by push_cast at hn ⊢; omega)
      rw [this]
      have : t - 1 - (n : Int) = t - ((n : Nat) + 1 : Nat) := by push_cast; omega
      rw [this]

/-- The state after the timer has counted a 10-minute session down to zero
and the auto-end path has completed: the interview is complete and exactly
one `end-interview` call was made. -/
theorem runTimer_ten_minutes_complete :
    runTimer true 601 (timedSessionStart 10) =
      { responseId := some "resp-1", interviewComplete := true,
        timeRemaining := some 0, endFetchCalls := 1 } := by
  have h600 : runTimer true 600 (timedSessionStart 10) =
      { timedSessionStart 10 with timeRemaining := some 0 } := by
    have := runTimer_countdown true 600 (timedSessionStart 10) 600 rfl rfl
      (by norm_num) (by norm_num)
    simpa using this
  have : (601 : Nat) = 600 + 1 := rfl
  rw [this, runTimer_add, h600]
  rfl

/-- C6: starting a session with `durationMinutes = 10` initializes
`timeRemaining` to 600 seconds; each timer tick decrements it by exactly one
(599 after the first tick, `600 - m` after `m ≤ 600` ticks, hence 0 after
600); at that point the end-of-interview path runs automatically and exactly
once — from the 601st effect run on, exactly one `end-interview` call has
been made and the session stays complete. -/
theorem c6_timer_scenario :
    (timedSessionStart 10).timeRemaining = some 600 ∧
    (runTimer true 1 (timedSessionStart 10)).timeRemaining = some 599 ∧
    (∀ m : Nat, m ≤ 600 →
      (runTimer true m (timedSessionStart 10)).timeRemaining = some (600 - (m : Int))) ∧
    (runTimer true 600 (timedSessionStart 10)).endFetchCalls = 0 ∧
    (∀ k : Nat,
      (runTimer true (601 + k) (timedSessionStart 10)).endFetchCalls = 1 ∧
      (runTimer true (601 + k) (timedSessionStart 10)).interviewComplete = true) := by
  have hm : ∀ m : Nat, m ≤ 600 →
      runTimer true m (timedSessionStart 10) =
        { timedSessionStart 10 with timeRemaining := some (600 - (m : Int)) } := by
    intro m hm
    exact runTimer_countdown true m (timedSessionStart 10) 600 rfl rfl
      (by norm_num) (by exact_mod_cast hm)
  have hk : ∀ k : Nat, runTimer true (601 + k) (timedSessionStart 10) =
      { responseId := some "resp-1", interviewComplete := true,
        timeRemaining := some 0, endFetchCalls := 1 } := by
    intro k
    rw [runTimer_add, runTimer_ten_minutes_complete]
    exact runTimer_complete true k _ rfl
  refine ⟨rfl, ?_, ?_, ?_, ?_⟩
  · rw [hm 1 (by norm_num)]; norm_num
  · intro m h; rw [hm m h]
  · rw [hm 600 (by norm_num)]; rfl
  · intro k; rw [hk k]; exact ⟨rfl, rfl⟩

/-- C7 counterexample: a session started with `durationMinutes = 0` leaves
the timer disabled (`timeRemaining` stays `null`), and no number of timer
effect runs ever issues an `end-interview` call — the code does NOT
"immediately trigger end-of-interview" as the claim states (shown here
after 5 effect runs, contradicting "immediately"). -/
theorem c7_counterexample :
    (timedSessionStart 0).timeRemaining = none ∧
    (runTimer true 5 (timedSessionStart 0)).endFetchCalls = 0 ∧
    (runTimer true 5 (timedSessionStart 0)).interviewComplete = false := by
  exact ⟨rfl, rfl, rfl⟩

/-- The zero-duration start state is a fixed point of the timer effect: the
gate is closed (`timeRemaining === null`), and the auto-end guard
`timeRemaining === 0` is false. -/
theorem runTimer_zero_duration (ok : Bool) (n : Nat) :
    runTimer ok n (timedSessionStart 0) = timedSessionStart 0 := by
  induction n with
  | zero => rfl
  | succ n ih => rw [runTimer_succ, show timerStep ok (timedSessionStart 0) =
      timedSessionStart 0 from rfl, ih]

/-- C7 (amended): a timer initialized with 0 duration never starts counting
(`timeRemaining` stays `null`, the disabled state) and never triggers
end-of-interview: no effect run changes the state, no `end-interview` call
is ever made, and the session does not complete. -/
theorem c7_zero_duration_amended (ok : Bool) (n : Nat) :
    (timedSessionStart 0).timeRemaining = none ∧
    (runTimer ok n (timedSessionStart 0)).timeRemaining = none ∧
    (runTimer ok n (timedSessionStart 0)).endFetchCalls = 0 ∧
    (runTimer ok n (timedSessionStart 0)).interviewComplete = false := by
  rw [runTimer_zero_duration]
  exact ⟨rfl, rfl, rfl, rfl⟩

/-- One timer-effect step keeps a non-negative clock non-negative. -/
theorem timerStep_nonneg (ok : Bool) (s : SessionState)
    (h : ∀ w, s.timeRemaining = some w → 0 ≤ w) :
    ∀ w, (timerStep ok s).timeRemaining = some w → 0 ≤ w := by
  intro w hw
  unfold timerStep at hw
  split at hw
  · split at hw
    · rw [endInterviewManually_timeRemaining] at hw; exact h w hw
    · exact h w hw
  · simp only at hw
    cases hs : s.timeRemaining with
    | none => rw [hs] at hw; simp [tickUpdate] at hw; omega
    | some t =>
      rw [hs] at hw
      simp only [tickUpdate] at hw
      split at hw <;> simp at hw <;> omega

/-! ## Chunk-sequence lemmas -/

/-- Every chunk attempt leaves the session state untouched: each failure
path ends in the handler's own `catch`, which only logs. -/
theorem screenChunkHandler_state (s : SessionState) (idx : Nat) (a : ChunkAttempt) :
    (screenChunkHandler s idx a).1 = s := by
  unfold screenChunkHandler
  split
  · split <;> rfl
  · rfl

/-- Every emitted index is at least the starting ref value. -/
theorem sentIndices_ge (l : List ChunkAttempt) (i : Nat) :
    ∀ x ∈ sentIndices i l, i ≤ x := by
  induction l generalizing i with
  | nil => intro x hx; simp [sentIndices] at hx
  | cons a rest ih =>
    intro x hx
    simp only [sentIndices] at hx
    split at hx
    · rcases List.mem_cons.mp hx with h | h
      · omega
      · have := ih _ x h
        split at this <;> omega
    · have := ih _ x hx
      split at this <;> omega

/-- The emitted index sequence is non-decreasing. -/
theorem sentIndices_monotone (l : List ChunkAttempt) (i : Nat) :
    List.Pairwise (· ≤ ·) (sentIndices i l) := by
  induction l generalizing i with
  | nil => simp [sentIndices]
  | cons a rest ih =>
    simp only [sentIndices]
    split
    · refine List.pairwise_cons.mpr ⟨fun x hx => ?_, ih _⟩
      have := sentIndices_ge rest _ x hx
      split at this <;> omega
    · exact ih _

/-- When every chunk is emitted and acknowledged, the indices starting from
ref value `i` are `i, i+1, ...`. -/
theorem sentIndices_all_acked (l : List ChunkAttempt) (i : Nat)
    (h : ∀ a ∈ l, a.socketReady = true ∧ a.ack = AckOutcome.acked) :
    sentIndices i l = List.range' i l.length := by
  induction l generalizing i with
  | nil => rfl
  | cons a rest ih =>
    obtain ⟨hs, ha⟩ := h a (by simp)
    have hrest := ih (i + 1) (fun x hx => h x (by simp [hx]))
    simp only [sentIndices, chunkEmitted, chunkAcked, hs, ha, List.length_cons,
      List.range'_succ]
    simp [hrest]

/-- C1 counterexample: when the first chunk's upload fails (acknowledgement
timeout) and the second succeeds, both chunks are sent under sequence number
0 — the emitted sequence is `[0, 0]`, which is not the contiguous strictly
increasing run `0, 1` and reuses number 0 for a different chunk. -/
theorem c1_counterexample :
    sentIndices 0
        [{ socketReady := true, ack := AckOutcome.ackTimeout },
         { socketReady := true, ack := AckOutcome.acked }] = [0, 0] ∧
    sentIndices 0
        [{ socketReady := true, ack := AckOutcome.ackTimeout },
         { socketReady := true, ack := AckOutcome.acked }] ≠ List.range 2 ∧
    ¬ List.Pairwise (fun x y => x ≠ y)
        (sentIndices 0
          [{ socketReady := true, ack := AckOutcome.ackTimeout },
           { socketReady := true, ack := AckOutcome.acked }]) := by
  refine ⟨rfl, by decide, by decide⟩

/-- C1 (amended): the sequence numbers under which screen chunks are sent
are non-decreasing from 0 and advance exactly on acknowledged uploads:
whenever every chunk upload is emitted and acknowledged they form the
contiguous run `0, 1, 2, ...`; after a failed upload the same number is
reused for the next chunk (the ref only increments after a positive
acknowledgement). -/
theorem c1_sequence_numbers_amended (attempts : List ChunkAttempt) :
    List.Pairwise (· ≤ ·) (sentIndices 0 attempts) ∧
    ((∀ a ∈ attempts, a.socketReady = true ∧ a.ack = AckOutcome.acked) →
      sentIndices 0 attempts = List.range attempts.length) := by
  refine ⟨sentIndices_monotone attempts 0, fun h => ?_⟩
  rw [sentIndices_all_acked attempts 0 h, List.range_eq_range']

/-- C2: no failure of an individual screen-chunk upload — socket still
disconnected after the 5-second wait, acknowledgement timeout, or an
explicit error response — stops the recorder or ends the session: every
attempt in the loop is handled (one result per chunk, failures reported as
`failed` by the handler's catch rather than escaping), and the session state
— recorder, completion flag, everything — is exactly what it was. -/
theorem c2_chunk_failure_never_stops_recording (s : SessionState) (idx : Nat)
    (attempts : List ChunkAttempt) :
    (runScreenChunks s idx attempts).1 = s ∧
    (runScreenChunks s idx attempts).2.2.length = attempts.length := by
  induction attempts generalizing s idx with
  | nil => exact ⟨rfl, rfl⟩
  | cons a rest ih =>
    simp only [runScreenChunks]
    rw [screenChunkHandler_state s idx a]
    exact ⟨(ih s _).1, by simp [(ih s _).2]⟩

/-- C10: the timer tick maps `null` and any value ≤ 1 to exactly 0 and
otherwise decrements by one; its output is never negative, and therefore
`timeRemaining`, once a number, stays non-negative across every reachable
timer state. -/
theorem c10_tick_nonneg :
    tickUpdate none = some 0 ∧
    (∀ x : Int, x ≤ 1 → tickUpdate (some x) = some 0) ∧
    (∀ x : Int, 1 < x → tickUpdate (some x) = some (x - 1)) ∧
    (∀ (p : Option Int) (v : Int), tickUpdate p = some v → 0 ≤ v) ∧
    (∀ (ok : Bool) (n : Nat) (s : SessionState),
      (∀ w, s.timeRemaining = some w → 0 ≤ w) →
      ∀ v, (runTimer ok n s).timeRemaining = some v → 0 ≤ v) := by
  refine ⟨rfl, ?_, ?_, ?_, ?_⟩
  · intro x hx; simp [tickUpdate, hx]
  · intro x hx; simp [tickUpdate, show ¬ (x ≤ 1) from by omega]
  · intro p v hv
    cases p with
    | none => simp [tickUpdate] at hv; omega
    | some t =>
      simp only [tickUpdate] at hv
      split at hv <;> simp at hv <;> omega
  · intro ok n
    induction n with
    | zero => intro s h v hv; exact h v hv
    | succ n ih =>
      intro s h v hv
      rw [runTimer_succ] at hv
      exact ih (timerStep ok s) (timerStep_nonneg ok s h) v hv

/-! ## Screen-sharing stop, tab-switch policy, idempotent session end -/

/-- C3: when the screen-share video track ends during an active session, a
`screen_sharing_stopped` alert is appended to the integrity log and
`screenSharingStopped` is set; while that flag is set, `submitAnswer` and
`toggleRecording` both return with a non-empty error message — no
`submit-answer` backend call, no recording started or stopped — and the flag
survives both calls and a failed restart; only a successful explicit
`restartScreenSharing` clears it. -/
theorem c3_screen_sharing_stop_blocks (s s' : SessionState) (rid : String)
    (hstop : s'.screenSharingStopped = true) (hrid : s'.responseId = some rid) :
    (videoTrackOnEnded s).alerts = s.alerts ++ ["screen_sharing_stopped"] ∧
    (videoTrackOnEnded s).screenSharingStopped = true ∧
    (∀ ok c : Bool,
      (submitAnswer ok c s').submitFetchCalls = s'.submitFetchCalls ∧
      (submitAnswer ok c s').error ≠ "" ∧
      (submitAnswer ok c s').screenSharingStopped = true) ∧
    (∀ micOk : Bool,
      (toggleRecording micOk s').recordingsStarted = s'.recordingsStarted ∧
      (toggleRecording micOk s').isRecording = s'.isRecording ∧
      (toggleRecording micOk s').error ≠ "" ∧
      (toggleRecording micOk s').screenSharingStopped = true) ∧
    (restartScreenSharing false s').screenSharingStopped = true ∧
    (restartScreenSharing true s').screenSharingStopped = false := by
  refine ⟨rfl, rfl, ?_, ?_, ?_, ?_⟩
  · intro ok c
    unfold submitAnswer
    by_cases h1 : s'.responseId = none ∨ s'.transcript.trim = "" ∨ s'.transcript = "Recording..."
    · rw [if_pos h1]
      refine ⟨rfl, ?_, hstop⟩
      show ("Please record an answer first" : String) ≠ ""
      decide
    · rw [if_neg h1, if_pos hstop]
      refine ⟨rfl, ?_, hstop⟩
      show ("⚠️ Cannot submit: Screen sharing is required. Please restart screen sharing to continue." : String) ≠ ""
      decide
  · intro micOk
    unfold toggleRecording
    rw [if_pos hstop]
    refine ⟨rfl, rfl, ?_, hstop⟩
    show ("⚠️ Cannot record: Screen sharing is required. Please restart screen sharing to continue." : String) ≠ ""
    decide
  · unfold restartScreenSharing
    rw [if_neg (by simp [hrid])]
    rw [if_neg (by simp)]
    exact hstop
  · unfold restartScreenSharing
    rw [if_neg (by simp [hrid])]
    rw [if_pos rfl]

/-- A session in which the screen track has just ended: active, with a
transcript ready, but `screenSharingStopped` set. -/
def blockedSession : SessionState :=
  { responseId := some "resp-1", screenSharingStopped := true,
    socketConnected := true, transcript := "my answer" }

/-- Witness for C3 at a concrete blocked state: submit makes no backend
call and errors, toggle starts nothing and errors, and a successful restart
clears the flag. -/
theorem c3_witness :
    (videoTrackOnEnded blockedSession).alerts = ["screen_sharing_stopped"] ∧
    (submitAnswer true false blockedSession).submitFetchCalls = 0 ∧
    (submitAnswer true false blockedSession).error ≠ "" ∧
    (toggleRecording true blockedSession).recordingsStarted = 0 ∧
    (toggleRecording true blockedSession).error ≠ "" ∧
    (restartScreenSharing true blockedSession).screenSharingStopped = false := by
  have h := c3_screen_sharing_stop_blocks blockedSession blockedSession "resp-1" rfl rfl
  exact ⟨h.1, (h.2.2.1 true false).1, (h.2.2.1 true false).2.1,
    (h.2.2.2.1 true).1, (h.2.2.2.1 true).2.2.1, h.2.2.2.2.2⟩

/-- The `endInterviewManually` never touches the tab-switch counter. -/
theorem endInterviewManually_tabSwitchCount (ok : Bool) (s : SessionState) :
    (endInterviewManually ok s).tabSwitchCount = s.tabSwitchCount := by
  unfold endInterviewManually
  split
  · rfl
  · split <;> rfl

/-- The `endInterviewManually` never touches the integrity log. -/
theorem endInterviewManually_alerts (ok : Bool) (s : SessionState) :
    (endInterviewManually ok s).alerts = s.alerts := by
  unfold endInterviewManually
  split
  · rfl
  · split <;> rfl

/-- On an active session (a `responseId`, not complete), `endInterviewManually`
issues exactly one `end-interview` backend call. -/
theorem endInterviewManually_calls (ok : Bool) (s : SessionState) (rid : String)
    (hrid : s.responseId = some rid) (hc : s.interviewComplete = false) :
    (endInterviewManually ok s).endFetchCalls = s.endFetchCalls + 1 := by
  unfold endInterviewManually
  rw [if_neg (by simp [hrid, hc])]
  split <;> rfl

/-- C4: every visibility-hidden transition increments the tab-switch counter
and appends a `tab_switch` alert; the transition that brings the counter to
exactly 3 invokes the forced-termination path (one `end-interview` call, the
same `endInterviewManually` as a normal end), while the transition to 2 does
not terminate anything. -/
theorem c4_tab_switch_policy (s : SessionState) (rid : String) (ok : Bool)
    (hrid : s.responseId = some rid) (hc : s.interviewComplete = false) :
    (handleVisibilityHidden ok s).tabSwitchCount = s.tabSwitchCount + 1 ∧
    (handleVisibilityHidden ok s).alerts = s.alerts ++ ["tab_switch"] ∧
    (s.tabSwitchCount = 2 →
      (handleVisibilityHidden ok s).endFetchCalls = s.endFetchCalls + 1) ∧
    (s.tabSwitchCount = 1 →
      (handleVisibilityHidden ok s).endFetchCalls = s.endFetchCalls ∧
      (handleVisibilityHidden ok s).interviewComplete = false) := by
  by_cases hge : s.tabSwitchCount + 1 ≥ 3
  · simp only [handleVisibilityHidden, recordCheatingAlert, if_pos hge]
    refine ⟨?_, ?_, fun _ => ?_, fun h1 => absurd hge (by omega)⟩
    · exact endInterviewManually_tabSwitchCount ok _
    · exact endInterviewManually_alerts ok _
    · exact endInterviewManually_calls ok _ rid hrid hc
  · simp only [handleVisibilityHidden, recordCheatingAlert, if_neg hge]
    exact ⟨trivial, trivial, fun h2 => absurd (show s.tabSwitchCount + 1 ≥ 3 by omega) hge,
      fun _ => ⟨trivial, hc⟩⟩

/-- A running session that has already seen two tab switches. -/
def twoSwitchSession : SessionState :=
  { responseId := some "resp-1", tabSwitchCount := 2 }

/-- A running session that has seen one tab switch. -/
def oneSwitchSession : SessionState :=
  { responseId := some "resp-1", tabSwitchCount := 1 }

/-- Witness for C4 at concrete states: the third switch terminates (one
`end-interview` call), the second does not. -/
theorem c4_witness :
    (handleVisibilityHidden true twoSwitchSession).tabSwitchCount = 3 ∧
    (handleVisibilityHidden true twoSwitchSession).endFetchCalls = 1 ∧
    (handleVisibilityHidden true oneSwitchSession).endFetchCalls = 0 ∧
    (handleVisibilityHidden true oneSwitchSession).interviewComplete = false := by
  have h2 := c4_tab_switch_policy twoSwitchSession "resp-1" true rfl rfl
  have h1 := c4_tab_switch_policy oneSwitchSession "resp-1" true rfl rfl
  exact ⟨h2.1, h2.2.2.1 rfl, (h1.2.2.2 rfl).1, (h1.2.2.2 rfl).2⟩

/-- C5: calling `endInterviewManually` when the session is already complete
is a no-op: the state is returned unchanged (so calling it a second time
after a completing call has the same observable effect as calling it once),
and in particular no further `end-interview` backend call is made. -/
theorem c5_end_interview_idempotent (s : SessionState) (ok : Bool)
    (h : s.interviewComplete = true) :
    endInterviewManually ok s = s ∧
    (endInterviewManually ok s).endFetchCalls = s.endFetchCalls := by
  have : endInterviewManually ok s = s := by
    unfold endInterviewManually
    rw [if_pos (Or.inr h)]
  exact ⟨this, by rw [this]⟩

/-- A session that has already completed (one end call made). -/
def completedSession : SessionState :=
  { responseId := some "resp-1", interviewComplete := true, endFetchCalls := 1 }

/-- Witness for C5 at a concrete completed state: a second end call changes
nothing and issues no second backend call. -/
theorem c5_witness :
    endInterviewManually true completedSession = completedSession ∧
    (endInterviewManually true completedSession).endFetchCalls = 1 := by
  have h := c5_end_interview_idempotent completedSession true rfl
  exact ⟨h.1, h.2⟩

/-! ## Base64 normalization and round trip -/

/-- C8: whatever FileReader data URL a binary chunk produces, the normalized
base64 string actually handed to the socket emit is non-empty, contains only
base64-alphabet characters (all whitespace/control and other foreign
characters removed), and has length a multiple of 4. -/
theorem c8_base64_normalization (result out : List Char)
    (h : normalizeChunkBase64 result = some out) :
    out ≠ [] ∧ (∀ c ∈ out, isB64AlphabetChar c = true) ∧ out.length % 4 = 0 := by
  simp only [normalizeChunkBase64] at h
  set b := keepB64Chars (stripWhitespaceChars (jsTrim (extractPayload result)))
    with hb
  by_cases h0 : b.length = 0
  · rw [if_pos h0] at h
    exact absurd h (by simp)
  · rw [if_neg h0] at h
    have hout : out = padTo4 b := (Option.some.inj h).symm
    refine ⟨?_, ?_, ?_⟩
    · have hpos : 0 < out.length := by
        rw [hout]
        unfold padTo4
        split
        · simp only [List.length_append, List.length_replicate]
          omega
        · omega
      exact List.length_pos.mp hpos
    · intro c hc
      rw [hout] at hc
      unfold padTo4 at hc
      split at hc
      · rcases List.mem_append.mp hc with hcb | hcr
        · have := List.mem_filter.mp (hb ▸ hcb)
          exact this.2
        · rw [List.eq_of_mem_replicate hcr]
          rfl
      · have := List.mem_filter.mp (hb ▸ hc)
        exact this.2
    · rw [hout]
      unfold padTo4
      split
      · simp only [List.length_append, List.length_replicate]
        omega
      · omega

/-- A FileReader result with a data-URL prefix, stray whitespace, a foreign
character, and a payload whose cleaned length (5) is not a multiple of 4. -/
theorem c8_witness :
    normalizeChunkBase64 ("data:video/mp4;base64,AA BB\nC!".toList) =
      some ("AABBC===".toList) ∧
    ("AABBC===".toList ≠ [] ∧
      (∀ c ∈ "AABBC===".toList, isB64AlphabetChar c = true) ∧
      ("AABBC===".toList).length % 4 = 0) :=
  ⟨by decide,
    c8_base64_normalization ("data:video/mp4;base64,AA BB\nC!".toList)
      ("AABBC===".toList) (by decide)⟩

theorem decode_encode_sextet : ∀ n < 64, decodeSextet (encodeSextet n) = n := by
  decide

theorem encodeSextet_ne_pad : ∀ n < 64, encodeSextet n ≠ '=' := by
  decide

/-- Decoding with `atob` undoes the backend's base64 encoding, byte for byte. -/
theorem atobBytes_b64Encode (bytes : List Nat) (h : ∀ b ∈ bytes, b < 256) :
    atobBytes (b64Encode bytes) = bytes := by
  induction bytes using b64Encode.induct with
  | case1 => rfl
  | case2 a =>
    have ha : a < 256 := h a (by simp)
    have h0 := decode_encode_sextet (a / 4) (by omega)
    have h1 := decode_encode_sextet (a % 4 * 16) (by omega)
    simp only [b64Encode, atobBytes, if_pos rfl, if_true, h0, h1,
      List.cons.injEq, and_true]
    omega
  | case3 a b =>
    have ha : a < 256 := h a (by simp)
    have hb : b < 256 := h b (by simp)
    have h0 := decode_encode_sextet (a / 4) (by omega)
    have h1 := decode_encode_sextet (a % 4 * 16 + b / 16) (by omega)
    have h2 := decode_encode_sextet (b % 16 * 4) (by omega)
    have hne := encodeSextet_ne_pad (b % 16 * 4) (by omega)
    simp only [b64Encode, atobBytes, if_neg hne, if_pos rfl, if_true, h0, h1, h2,
      List.cons.injEq, and_true]
    exact ⟨by omega, by omega⟩
  | case4 a b c rest ih =>
    have ha : a < 256 := h a (by simp)
    have hb : b < 256 := h b (by simp)
    have hc : c < 256 := h c (by simp)
    have h0 := decode_encode_sextet (a / 4) (by omega)
    have h1 := decode_encode_sextet (a % 4 * 16 + b / 16) (by omega)
    have h2 := decode_encode_sextet (b % 16 * 4 + c / 64) (by omega)
    have h3 := decode_encode_sextet (c % 64) (by omega)
    have hne2 := encodeSextet_ne_pad (b % 16 * 4 + c / 64) (by omega)
    have hne3 := encodeSextet_ne_pad (c % 64) (by omega)
    have ih' := ih (fun x hx => h x (by simp [hx]))
    simp only [b64Encode, atobBytes, if_neg hne2, if_neg hne3, h0, h1, h2, h3,
      List.cons.injEq]
    exact ⟨by omega, by omega, by omega, ih'⟩

/-- Applying `charCodeAt` recovers the byte value a binary-string character was built
from (every byte is a valid code point). -/
theorem charCodeRoundTrip (n : Nat) (h : n < 256) : (Char.ofNat n).toNat = n := by
  have hv : n.isValidChar := Or.inl (by omega)
  simp [Char.ofNat, hv, Char.ofNatAux, Char.toNat, UInt32.toNat,
    BitVec.toNat_ofNatLt]

/-- C9: for every synthesized-audio payload (a byte sequence), encoding it
to base64 and then decoding through the playback path — `atob` followed by
per-character `charCodeAt` into a `Uint8Array` — reproduces the audio data
byte for byte. -/
theorem c9_tts_round_trip (bytes : List Nat) (h : ∀ b ∈ bytes, b < 256) :
    playTTSAudioBytes (b64Encode bytes) = bytes := by
  unfold playTTSAudioBytes atob
  rw [atobBytes_b64Encode bytes h, List.map_map]
  have hcongr : ∀ b ∈ bytes, (Char.toNat ∘ Char.ofNat) b = id b := fun b hb =>
    charCodeRoundTrip b (h b hb)
  rw [List.map_congr_left hcongr, List.map_id]

/-- Witness for C9 on a concrete three-byte payload. -/
theorem c9_witness : playTTSAudioBytes (b64Encode [0, 255, 16]) = [0, 255, 16] :=
  c9_tts_round_trip [0, 255, 16] (by decide)

end InterviewSession
